import Mathlib

/-!
Verification development for the fal-ideogram-v3 MCP server
(`src/index.ts`).  The TypeScript source is shallowly embedded: the
handler bodies become pure Lean functions over explicit environment
records (the fal.ai backend outcome, per-image download outcomes, the
current ISO timestamp, the working directory), JavaScript truthiness is
modelled explicitly, and every error that the source catches is an
`Except.error` value in the environment.
-/

set_option autoImplicit false
set_option linter.unusedVariables false

universe u

/-! ## JavaScript semantics helpers -/

/-- Truthiness of an optional JS string: `undefined` and `""` are falsy. -/
def jsTruthyStr : Option String → Bool
  | some s => s != ""
  | none => false

/-- JS `x || d` for an optional string `x` (used for `image.content_type ||
'image/png'` and `color_palette.name || 'Custom'`). -/
def jsOrStr (o : Option String) (d : String) : String :=
  match o with
  | some s => if s == "" then d else s
  | none => d

/-- The characters matched by the JS regex class `\s` (as used by
`.replace(/[^a-z0-9\s]/g, '')` and `.replace(/\s+/g, '_')`). -/
def isJsSpace (c : Char) : Bool :=
  c == ' ' || c == '\t' || c == '\n' || c == '\r' ||
  c.toNat == 11 || c.toNat == 12 || c.toNat == 160 || c.toNat == 0x1680 ||
  (0x2000 ≤ c.toNat && c.toNat ≤ 0x200A) || c.toNat == 0x2028 || c.toNat == 0x2029 ||
  c.toNat == 0x202F || c.toNat == 0x205F || c.toNat == 0x3000 || c.toNat == 0xFEFF

/-! ## Data model (interfaces of `src/index.ts`, lines 28-59) -/

/-- The `image_size` field: either one of the six named presets or an explicit
width/height object. -/
inductive ImageSizeT where
  | preset (s : String)
  | custom (width height : Int)
deriving DecidableEq, Inhabited

structure RGBColor where
  r : Int
  g : Int
  b : Int
deriving DecidableEq

structure ColorPaletteMember where
  rgb : RGBColor
  color_weight : Option Rat := none
deriving DecidableEq

structure ColorPalette where
  members : Option (List ColorPaletteMember) := none
  name : Option String := none
deriving DecidableEq

/-- One entry of `IdeogramImageResult.images` (lines 29-37). -/
structure ImageEntry where
  url : String
  content_type : Option String := none
  file_name : Option String := none
  file_size : Option Int := none
deriving DecidableEq, Inhabited

/-- Interface `IdeogramImageResult` (lines 29-37): the backend's generation result. -/
structure IdeogramImageResult where
  images : List ImageEntry
  seed : Option Int := none
deriving DecidableEq, Inhabited

/-- The request arguments shared by `ideogram_v3_generate` and
`ideogram_v3_generate_queue`.  `none` means the JSON field is absent
(`undefined`); declared schema defaults are applied inside the handlers,
exactly as the destructuring defaults do in the source. -/
structure GenArgs where
  prompt : String
  negative_prompt : Option String := none
  image_size : Option ImageSizeT := none
  rendering_speed : Option String := none
  style : Option String := none
  style_codes : Option (List String) := none
  color_palette : Option ColorPalette := none
  image_urls : Option (List String) := none
  expand_prompt : Option Bool := none
  num_images : Option Nat := none
  seed : Option Int := none
  sync_mode : Option Bool := none
deriving DecidableEq

/-- The payload object sent to the fal.ai client (`input` in the source).
A `none` optional field is a key that is absent from the object. -/
structure FalInput where
  prompt : String
  negative_prompt : Option String := none
  image_size : Option ImageSizeT := none
  rendering_speed : Option String := none
  style : Option String := none
  style_codes : Option (List String) := none
  color_palette : Option ColorPalette := none
  image_urls : Option (List String) := none
  expand_prompt : Option Bool := none
  num_images : Option Nat := none
  seed : Option Int := none
  sync_mode : Option Bool := none
deriving DecidableEq

/-! ## Filename generation (`generateImageFilename`, lines 104-114) -/

/-- Models `.replace(/\s+/g, '_')`: each maximal run of JS whitespace becomes a
single underscore.  The boolean argument records whether the previous
character belonged to a whitespace run. -/
def collapseSpacesAux : Bool → List Char → List Char
  | _, [] => []
  | prevSpace, c :: rest =>
    match isJsSpace c, prevSpace with
    | true, true => collapseSpacesAux true rest
    | true, false => '_' :: collapseSpacesAux true rest
    | false, _ => c :: collapseSpacesAux false rest

/-- Characters kept by `.replace(/[^a-z0-9\s]/g, '')` (after lowercasing). -/
def keepChar (c : Char) : Bool :=
  ('a' ≤ c && c ≤ 'z') || ('0' ≤ c && c ≤ '9') || isJsSpace c

/-- The `safePrompt` computation of `generateImageFilename` (lines 105-109):
lowercase, strip everything but `[a-z0-9\s]`, collapse whitespace runs to
`_`, truncate to the first 50 characters.  (`Char.toLower` models JS
`toLowerCase` on the ASCII range; any character whose lowercase form is
outside `[a-z0-9\s]` is stripped by the following filter either way.) -/
def sanitizePrompt (p : String) : String :=
  String.mk ((collapseSpacesAux false ((p.data.map Char.toLower).filter keepChar)).take 50)

/-- Models `new Date().toISOString().replace(/[:.]/g, '-')` (line 111), with the
ISO timestamp supplied as an argument since the clock is ambient state. -/
def tsReplace (iso : String) : String :=
  String.mk (iso.data.map (fun c => if c == ':' || c == '.' then '-' else c))

/-- Models the seed segment of line 112: a JS number is
falsy exactly when it is `0` (or absent). -/
def seedStr : Option Int → String
  | some s => if s == 0 then "" else "_" ++ toString s
  | none => ""

/-- Function `generateImageFilename` (lines 104-114). -/
def generateImageFilename (prompt : String) (index : Nat) (seed : Option Int) (isoNow : String) : String :=
  "ideogram_v3_" ++ sanitizePrompt prompt ++ seedStr seed ++ "_" ++ toString index ++ "_" ++ tsReplace isoNow ++ ".png"

/-! ## `downloadImage` (lines 62-101) with an explicit filesystem -/

/-- How one download attempt ends: HTTP 200 with the body fully written,
a non-2xx status code, a request ("network") error, or a write-stream
error mid-stream. -/
inductive DownloadOutcome where
  | success
  | non2xx (code : Nat)
  | netError (msg : String)
  | writeError (msg : String)
deriving DecidableEq

deriving instance DecidableEq for Except

/-- Function `downloadImage` (lines 62-101).  The filesystem is the list of file
paths present in the images directory.  `fs.createWriteStream(filePath)`
creates the file before the HTTP response arrives, so every branch starts
from a filesystem containing `filePath`; only the write-stream error
branch runs `fs.unlink(filePath)` (line 91). -/
def downloadImage (fs : List String) (cwd url filename : String) (outcome : DownloadOutcome) :
    Except String String × List String :=
  let imagesDir := cwd ++ "/images"
  let filePath := imagesDir ++ "/" ++ filename
  let fs1 := if filePath ∈ fs then fs else filePath :: fs
  match outcome with
  | .success => (Except.ok filePath, fs1)
  | .non2xx code => (Except.error ("Failed to download image: HTTP " ++ toString code), fs1)
  | .netError m => (Except.error m, fs1)
  | .writeError m => (Except.error m, fs1.erase filePath)

/-! ## The download loop shared by `ideogram_v3_generate` (lines 328-357)
and `ideogram_v3_queue_result` (lines 723-751) -/

/-- One element of the `downloadedImages` array. -/
structure DownloadedImage where
  url : String
  localPath : Option String
  index : Nat
  content_type : String
  file_name : String
  file_size : Option Int
  filename : String
deriving DecidableEq, Inhabited

/-- The body of one iteration of the download loop: `i` is the 0-based JS
loop variable, `ok i` tells whether `downloadImage` resolved for this
image.  On success `localPath` is the resolved file path, on failure the
entry is recorded with `localPath := none` (lines 332-356). -/
def downloadEntry (cwd prompt : String) (seed : Option Int) (isoNow : String)
    (ok : Nat → Bool) (i : Nat) (img : ImageEntry) : DownloadedImage :=
  let filename := generateImageFilename prompt (i + 1) seed isoNow
  { url := img.url
    localPath := if ok i then some (cwd ++ "/images" ++ "/" ++ filename) else none
    index := i + 1
    content_type := jsOrStr img.content_type "image/png"
    file_name := jsOrStr img.file_name filename
    file_size := img.file_size
    filename := filename }

def downloadLoopAux (cwd prompt : String) (seed : Option Int) (isoNow : String)
    (ok : Nat → Bool) : Nat → List ImageEntry → List DownloadedImage
  | _, [] => []
  | i, img :: rest =>
    downloadEntry cwd prompt seed isoNow ok i img :: downloadLoopAux cwd prompt seed isoNow ok (i + 1) rest

/-- The whole `for (let i = 0; i < output.images.length; i++)` loop. -/
def downloadLoop (cwd prompt : String) (seed : Option Int) (isoNow : String)
    (ok : Nat → Bool) (images : List ImageEntry) : List DownloadedImage :=
  downloadLoopAux cwd prompt seed isoNow ok 0 images

/-! ## Response formatting -/

/-- A tool response: the text content plus the `isError` flag (absent in
the source's success responses, modelled as `false`). -/
structure ToolResponse where
  text : String
  isError : Bool
deriving DecidableEq

/-- The `FAL_KEY`-missing response returned by all four handlers. -/
def notConfiguredResponse : ToolResponse :=
  { text := "Error: FAL_KEY environment variable is not set. Please configure your fal.ai API key."
    isError := true }

/-- The style/style_codes validation error response (lines 282-288 and
543-549). -/
def conflictResponse : ToolResponse :=
  { text := "Error: Cannot use both \x27style\x27 and \x27style_codes\x27 parameters together. Please use only one."
    isError := true }

/-- One block of `imageDetails` (lines 360-372 and 753-765).  JS `if
(img.file_size)` is number truthiness, so a declared size of `0` is not
printed. -/
def imageDetail (img : DownloadedImage) : String :=
  "Image " ++ toString img.index ++ ":" ++
  (match img.localPath with
   | some p => "\n  Local Path: " ++ p
   | none => "") ++
  "\n  Original URL: " ++ img.url ++
  "\n  Filename: " ++ img.filename ++
  "\n  Content Type: " ++ img.content_type ++
  (match img.file_size with
   | some n => if n == 0 then "" else "\n  File Size: " ++ toString n ++ " bytes"
   | none => "")

def imageDetails (dls : List DownloadedImage) : String :=
  String.intercalate "\n\n" (dls.map imageDetail)

def imageSizeStr : ImageSizeT → String
  | .preset s => s
  | .custom w h => toString w ++ "x" ++ toString h

def boolStr (b : Bool) : String := if b then "true" else "false"

def negLine (negative_prompt : String) : String :=
  if negative_prompt != "" then "Negative Prompt: \x22" ++ negative_prompt ++ "\x22" else ""

def styleLine : Option String → String
  | some s => if s != "" then "Style: " ++ s else ""
  | none => ""

def styleCodesLine : Option (List String) → String
  | some cs => if cs.length > 0 then "Style Codes: " ++ String.intercalate ", " cs else ""
  | none => ""

def paletteLine : Option ColorPalette → String
  | some cp => "Color Palette: " ++ jsOrStr cp.name "Custom"
  | none => ""

def imageUrlsLine : Option (List String) → String
  | some us => if us.length > 0 then "Style Reference Images: " ++ toString us.length else ""
  | none => ""

/-- Models the seed line of the summaries
(lines 387 and 771): a backend seed of `0` is falsy. -/
def seedLine : Option Int → String
  | some s => if s == 0 then "Seed: Auto-generated" else "Seed: " ++ toString s
  | none => "Seed: Auto-generated"

/-- The final line of the generate / queue-result summaries (lines 393 and
776): present iff at least one download produced a local path.  (All
produced local paths are non-empty strings, so JS string truthiness of
`img.localPath` coincides with non-nullness.) -/
def footerLine (dls : List DownloadedImage) : String :=
  if dls.any (fun d => d.localPath.isSome) then
    "Images have been downloaded to the local \x27images\x27 directory."
  else
    "Note: Local download failed, but original URLs are available."

/-- Opening segment of the generate summary, up to the prompt echo
(line 376-378). -/
def genHeader (n : Nat) : String :=
  "Successfully generated " ++ toString n ++ " image(s) using fal-ai/ideogram/v3:\n\nPrompt: \x22"

/-- The request-echo segment of the generate summary between the prompt
and the seed line (lines 378-386). -/
def genMidA (prompt negative_prompt : String) (image_size : ImageSizeT) (rendering_speed : String)
    (style : Option String) (style_codes : Option (List String)) (color_palette : Option ColorPalette)
    (image_urls : Option (List String)) (expand_prompt : Bool) : String :=
  prompt ++ "\x22\n" ++ negLine negative_prompt ++ "\nImage Size: " ++ imageSizeStr image_size ++
  "\nRendering Speed: " ++ rendering_speed ++ "\n" ++ styleLine style ++ "\n" ++
  styleCodesLine style_codes ++ "\n" ++ paletteLine color_palette ++ "\n" ++
  imageUrlsLine image_urls ++ "\nExpand Prompt: " ++ boolStr expand_prompt

/-- The seed line of the generate summary with its surrounding newlines
(lines 386-388). -/
def seedGroup (seed : Option Int) : String :=
  "\n" ++ seedLine seed ++ "\nRequest ID: "

/-- The image-list segment of the generate summary (lines 388-392). -/
def genMidB (requestId : String) (dls : List DownloadedImage) : String :=
  requestId ++ "\n\nGenerated Images:\n" ++ imageDetails dls ++ "\n\n"

/-- The `responseText` of `ideogram_v3_generate` (lines 376-393), split into
the named segments above; the concatenation reproduces the template
literal exactly. -/
def responseTextGenerate (prompt negative_prompt : String) (image_size : ImageSizeT)
    (rendering_speed : String) (style : Option String) (style_codes : Option (List String))
    (color_palette : Option ColorPalette) (image_urls : Option (List String))
    (expand_prompt : Bool) (seed : Option Int) (requestId : String)
    (dls : List DownloadedImage) : String :=
  genHeader dls.length ++
  genMidA prompt negative_prompt image_size rendering_speed style style_codes color_palette image_urls expand_prompt ++
  seedGroup seed ++ genMidB requestId dls ++ footerLine dls

/-- Middle segment of the queue-result summary (lines 767-769). -/
def qrHeader (n : Nat) : String :=
  "\n\nSuccessfully completed! Generated " ++ toString n ++ " image(s):\n\n"

/-- Image-list segment of the queue-result summary (lines 771-776). -/
def qrMid (dls : List DownloadedImage) : String :=
  "\n\nGenerated Images:\n" ++ imageDetails dls ++ "\n\n"

/-- The `responseText` of `ideogram_v3_queue_result` (lines 767-776). -/
def responseTextQueueResult (request_id : String) (seed : Option Int)
    (dls : List DownloadedImage) : String :=
  "Queue Result for Request ID: " ++ request_id ++ qrHeader dls.length ++ seedLine seed ++
  qrMid dls ++ footerLine dls

/-- Success text of `ideogram_v3_generate_queue` (lines 563-569). -/
def responseTextQueueSubmit (prompt rid : String) (webhook_url : Option String) : String :=
  "Successfully submitted image generation request to queue.\n\nRequest ID: " ++ rid ++
  "\nPrompt: \x22" ++ prompt ++ "\x22\n" ++
  (if jsTruthyStr webhook_url then "Webhook URL: " ++ webhook_url.getD "" else "No webhook configured") ++
  "\n\nUse the request ID with ideogram_v3_queue_status to check progress or ideogram_v3_queue_result to get the final result."

structure LogEntry where
  timestamp : String
  message : String
deriving DecidableEq

/-- The backend's queue status answer (`fal.queue.status` result). -/
structure QueueStatusResult where
  status : String
  response_url : Option String := none
  logs : Option (List LogEntry) := none
deriving DecidableEq

/-- Status text of `ideogram_v3_queue_status` (lines 637-649). -/
def responseTextQueueStatus (request_id : String) (st : QueueStatusResult) : String :=
  "Queue Status for Request ID: " ++ request_id ++ "\n\nStatus: " ++ st.status ++
  (match st.response_url with
   | some u => if u != "" then "\nResponse URL: " ++ u else ""
   | none => "") ++
  (match st.logs with
   | some ls =>
     if ls.length > 0 then
       "\n\nLogs:\n" ++ String.intercalate "\n" (ls.map (fun l => "[" ++ l.timestamp ++ "] " ++ l.message))
     else ""
   | none => "")

/-! ## Validation and payload construction -/

/-- Models `style_codes && style_codes.length > 0`. -/
def hasNonemptyCodes : Option (List String) → Bool
  | some cs => !cs.isEmpty
  | none => false

/-- The only cross-field validation rule: `if (style && style_codes &&
style_codes.length > 0)` (lines 281 and 542). -/
def styleConflict (a : GenArgs) : Bool :=
  jsTruthyStr a.style && hasNonemptyCodes a.style_codes

/-- Models `if (x && x.length > 0) input.x = x` for a list-valued optional. -/
def keepNonemptyList : Option (List String) → Option (List String)
  | some cs => if cs.length > 0 then some cs else none
  | none => none

/-- Models `if (style) input.style = style`. -/
def keepTruthyStr (o : Option String) : Option String :=
  if jsTruthyStr o then o else none

/-- The `input` object built by `ideogram_v3_generate` (lines 292-307):
the seven base fields always present (with destructuring defaults
applied), the optional fields added only when their JS condition holds. -/
def buildGenerateInput (a : GenArgs) : FalInput :=
  { prompt := a.prompt
    negative_prompt := some (a.negative_prompt.getD "")
    image_size := some (a.image_size.getD (ImageSizeT.preset "square_hd"))
    rendering_speed := some (a.rendering_speed.getD "BALANCED")
    style := keepTruthyStr a.style
    style_codes := keepNonemptyList a.style_codes
    color_palette := a.color_palette
    image_urls := keepNonemptyList a.image_urls
    expand_prompt := some (a.expand_prompt.getD true)
    num_images := some (a.num_images.getD 1)
    seed := a.seed
    sync_mode := some (a.sync_mode.getD true) }

/-- The `input` object of `ideogram_v3_generate_queue` (line 538):
`const { webhook_url, ...input } = args` — the raw arguments minus the
webhook URL, with no defaults and no omission of empty lists. -/
def buildQueueInput (a : GenArgs) : FalInput :=
  { prompt := a.prompt
    negative_prompt := a.negative_prompt
    image_size := a.image_size
    rendering_speed := a.rendering_speed
    style := a.style
    style_codes := a.style_codes
    color_palette := a.color_palette
    image_urls := a.image_urls
    expand_prompt := a.expand_prompt
    num_images := a.num_images
    seed := a.seed
    sync_mode := a.sync_mode }

/-! ## Handlers -/

/-- Environment for `ideogram_v3_generate` and `ideogram_v3_queue_result`:
the backend call outcome (`fal.subscribe` / `fal.queue.result`, an
`error` models a thrown exception caught by the handler's `catch`),
which download attempts succeed, the ambient clock and cwd, and the
request id reported by the backend. -/
structure GenEnv where
  backend : Except String IdeogramImageResult
  downloadOk : Nat → Bool
  isoNow : String
  requestId : String
  cwd : String

/-- Environment for `ideogram_v3_generate_queue`: the `fal.queue.submit`
outcome (`ok` carries `result.request_id`). -/
structure QueueSubmitEnv where
  submit : Except String String

/-- Environment for `ideogram_v3_queue_status`. -/
structure StatusEnv where
  status : Except String QueueStatusResult

/-- Observable outcome of one `ideogram_v3_generate` invocation. -/
structure GenCall where
  response : ToolResponse
  backendCalled : Bool
  payload : Option FalInput
  downloads : List DownloadedImage
deriving DecidableEq

structure QueueSubmitCall where
  response : ToolResponse
  backendCalled : Bool
  payload : Option FalInput
deriving DecidableEq

structure StatusCall where
  response : ToolResponse
  backendCalled : Bool
deriving DecidableEq

structure QueueResultCall where
  response : ToolResponse
  backendCalled : Bool
  downloads : List DownloadedImage
deriving DecidableEq

/-- The `ideogram_v3_generate` handler (lines 252-423). -/
def handlerGenerate (configured : Bool) (a : GenArgs) (env : GenEnv) : GenCall :=
  if !configured then
    { response := notConfiguredResponse, backendCalled := false, payload := none, downloads := [] }
  else if styleConflict a then
    { response := conflictResponse, backendCalled := false, payload := none, downloads := [] }
  else
    match env.backend with
    | .error msg =>
      { response := { text := "Failed to generate image with fal-ai/ideogram/v3. Error: " ++ msg, isError := true }
        backendCalled := true, payload := some (buildGenerateInput a), downloads := [] }
    | .ok out =>
      let dls := downloadLoop env.cwd a.prompt out.seed env.isoNow env.downloadOk out.images
      { response :=
          { text := responseTextGenerate a.prompt (a.negative_prompt.getD "")
              (a.image_size.getD (ImageSizeT.preset "square_hd")) (a.rendering_speed.getD "BALANCED")
              a.style a.style_codes a.color_palette a.image_urls (a.expand_prompt.getD true)
              out.seed env.requestId dls
            isError := false }
        backendCalled := true, payload := some (buildGenerateInput a), downloads := dls }

/-- The `ideogram_v3_generate_queue` handler (lines 527-592). -/
def handlerGenerateQueue (configured : Bool) (a : GenArgs) (webhook_url : Option String)
    (env : QueueSubmitEnv) : QueueSubmitCall :=
  if !configured then
    { response := notConfiguredResponse, backendCalled := false, payload := none }
  else if styleConflict a then
    { response := conflictResponse, backendCalled := false, payload := none }
  else
    match env.submit with
    | .error msg =>
      { response := { text := "Failed to submit queue request for fal-ai/ideogram/v3. Error: " ++ msg, isError := true }
        backendCalled := true, payload := some (buildQueueInput a) }
    | .ok rid =>
      { response := { text := responseTextQueueSubmit a.prompt rid webhook_url, isError := false }
        backendCalled := true, payload := some (buildQueueInput a) }

/-- The `ideogram_v3_queue_status` handler (lines 616-678). -/
def handlerQueueStatus (configured : Bool) (request_id : String) (logs : Option Bool)
    (env : StatusEnv) : StatusCall :=
  if !configured then
    { response := notConfiguredResponse, backendCalled := false }
  else
    match env.status with
    | .error msg =>
      { response := { text := "Failed to check queue status. Error: " ++ msg, isError := true }
        backendCalled := true }
    | .ok st =>
      { response := { text := responseTextQueueStatus request_id st, isError := false }
        backendCalled := true }

/-- The `ideogram_v3_queue_result` handler (lines 697-805). -/
def handlerQueueResult (configured : Bool) (request_id : String) (env : GenEnv) : QueueResultCall :=
  if !configured then
    { response := notConfiguredResponse, backendCalled := false, downloads := [] }
  else
    match env.backend with
    | .error msg =>
      { response := { text := "Failed to get queue result. Error: " ++ msg, isError := true }
        backendCalled := true, downloads := [] }
    | .ok out =>
      let dls := downloadLoop env.cwd ("queue_result_" ++ request_id) out.seed env.isoNow env.downloadOk out.images
      { response := { text := responseTextQueueResult request_id out.seed dls, isError := false }
        backendCalled := true, downloads := dls }

/-! ## Process startup (lines 13-26) -/

structure StartupState where
  falConfigured : Bool
  exited : Bool
deriving DecidableEq

/-- Startup: read `FAL_KEY`; when it is absent (or empty, JS truthiness)
only log to stderr — the process keeps running (`// Server continues
running, no process.exit()`); otherwise configure the client. -/
def startup (falKey : Option String) : StartupState :=
  if jsTruthyStr falKey then { falConfigured := true, exited := false }
  else { falConfigured := false, exited := false }

/-- Discriminator used to state error-flag facts. -/
def exceptOk {α : Type u} : Except String α → Bool
  | .ok _ => true
  | .error _ => false

/-! ## Concrete fixtures used by witnesses -/

def sampleImages : List ImageEntry :=
  [{ url := "http://img/1.png" }, { url := "http://img/2.png", file_size := some 10 }]

def sampleOut : IdeogramImageResult := { images := sampleImages, seed := none }

def sampleOk : Nat → Bool := fun i => i == 0

def sampleEnv : GenEnv :=
  { backend := Except.ok sampleOut, downloadOk := sampleOk,
    isoNow := "2025-01-01T00:00:00.000Z", requestId := "req-1", cwd := "/w" }

def sampleArgs : GenArgs := { prompt := "a cat" }

def conflictArgs : GenArgs :=
  { prompt := "x", style := some "REALISTIC", style_codes := some ["A1B2C3D4"] }

def emptyOut : IdeogramImageResult := { images := [] }

def emptyEnv : GenEnv :=
  { backend := Except.ok emptyOut, downloadOk := fun _ => true,
    isoNow := "T", requestId := "r", cwd := "/w" }

def zeroSeedOut : IdeogramImageResult := { images := sampleImages, seed := some 0 }

def zeroSeedEnv : GenEnv :=
  { backend := Except.ok zeroSeedOut, downloadOk := sampleOk,
    isoNow := "T", requestId := "r", cwd := "/w" }

def c5FullArgs : GenArgs :=
  { prompt := "x", negative_prompt := some "bad", image_size := some (ImageSizeT.preset "square"),
    rendering_speed := some "TURBO", style := some "REALISTIC", style_codes := none,
    color_palette := none, image_urls := some ["http://ref.png"], expand_prompt := some false,
    num_images := some 2, seed := some 7, sync_mode := some true }

/-! ## Basic string/list helper lemmas -/

theorem strData_append (a b : String) : (a ++ b).data = a.data ++ b.data := by
  cases a; cases b; rfl

theorem strLength_append (a b : String) : (a ++ b).length = a.length + b.length := by
  cases a with
  | mk da =>
    cases b with
    | mk db => exact List.length_append da db

theorem dataPrefixExtend (l : List Char) (s t : String) (h : l <+: s.data) :
    l <+: (s ++ t).data := by
  obtain ⟨u, hu⟩ := h
  exact ⟨u ++ t.data, by rw [strData_append, ← hu]; simp [List.append_assoc]⟩

theorem dataSuffixExtend (l : List Char) (s t : String) (h : l <:+ t.data) :
    l <:+ (s ++ t).data := by
  obtain ⟨u, hu⟩ := h
  exact ⟨s.data ++ u, by rw [strData_append, ← hu]; simp [List.append_assoc]⟩

theorem dataInfixExtendRight (l : List Char) (s t : String) (h : l <:+: s.data) :
    l <:+: (s ++ t).data := by
  obtain ⟨x, y, hxy⟩ := h
  exact ⟨x, y ++ t.data, by rw [strData_append, ← hxy]; simp [List.append_assoc]⟩

theorem dataInfixExtendLeft (l : List Char) (s t : String) (h : l <:+: t.data) :
    l <:+: (s ++ t).data := by
  obtain ⟨x, y, hxy⟩ := h
  exact ⟨s.data ++ x, y, by rw [strData_append, ← hxy]; simp [List.append_assoc]⟩

theorem countP_bool_partition {α : Type u} (p : α → Bool) :
    ∀ l : List α, l.countP p + l.countP (fun x => !(p x)) = l.length := by
  intro l
  induction l with
  | nil => rfl
  | cons a l ih => cases h : p a <;> simp [List.countP_cons, h] <;> omega

/-! ## Validation characterization -/

theorem styleConflict_iff (a : GenArgs) :
    styleConflict a = true ↔ (jsTruthyStr a.style = true ∧ ∃ cs, a.style_codes = some cs ∧ cs ≠ []) := by
  cases h : a.style_codes with
  | none => simp [styleConflict, hasNonemptyCodes, h]
  | some cs => cases cs <;> simp [styleConflict, hasNonemptyCodes, h]

/-! ## Field-wise payload lemmas -/

theorem optSomeGetD_eq {α : Type u} (o : Option α) (d : α) :
    (some (o.getD d) = o) ↔ o.isSome = true := by
  cases o <;> simp

theorem keepTruthy_eq_iff (o : Option String) : keepTruthyStr o = o ↔ o ≠ some "" := by
  cases o with
  | none => simp [keepTruthyStr, jsTruthyStr]
  | some s =>
    by_cases h : s = "" <;> simp [keepTruthyStr, jsTruthyStr, h]

theorem keepNonempty_eq_iff (o : Option (List String)) : keepNonemptyList o = o ↔ o ≠ some [] := by
  cases o with
  | none => simp [keepNonemptyList]
  | some cs => cases cs <;> simp [keepNonemptyList]

/-! ## Download-loop lemmas -/

theorem downloadEntry_localPath_isSome (cwd prompt : String) (seed : Option Int) (isoNow : String)
    (ok : Nat → Bool) (i : Nat) (img : ImageEntry) :
    ((downloadEntry cwd prompt seed isoNow ok i img).localPath).isSome = ok i := by
  cases h : ok i <;> simp [downloadEntry, h]

theorem downloadLoopAux_length (cwd prompt : String) (seed : Option Int) (isoNow : String)
    (ok : Nat → Bool) : ∀ (images : List ImageEntry) (i : Nat),
    (downloadLoopAux cwd prompt seed isoNow ok i images).length = images.length := by
  intro images
  induction images with
  | nil => intro i; rfl
  | cons img rest ih => intro i; simp [downloadLoopAux, ih]

theorem downloadLoopAux_map_url (cwd prompt : String) (seed : Option Int) (isoNow : String)
    (ok : Nat → Bool) : ∀ (images : List ImageEntry) (i : Nat),
    (downloadLoopAux cwd prompt seed isoNow ok i images).map (fun d => d.url) =
      images.map (fun img => img.url) := by
  intro images
  induction images with
  | nil => intro i; rfl
  | cons img rest ih => intro i; simp [downloadLoopAux, downloadEntry, ih]

theorem downloadLoopAux_map_index (cwd prompt : String) (seed : Option Int) (isoNow : String)
    (ok : Nat → Bool) : ∀ (images : List ImageEntry) (i : Nat),
    (downloadLoopAux cwd prompt seed isoNow ok i images).map (fun d => d.index) =
      List.range' (i + 1) images.length := by
  intro images
  induction images with
  | nil => intro i; rfl
  | cons img rest ih =>
    intro i
    simp only [List.length_cons]
    rw [List.range'_succ]
    simp [downloadLoopAux, downloadEntry, ih]

theorem downloadLoopAux_map_isSome (cwd prompt : String) (seed : Option Int) (isoNow : String)
    (ok : Nat → Bool) : ∀ (images : List ImageEntry) (i : Nat),
    (downloadLoopAux cwd prompt seed isoNow ok i images).map (fun d => d.localPath.isSome) =
      (List.range' i images.length).map ok := by
  intro images
  induction images with
  | nil => intro i; rfl
  | cons img rest ih =>
    intro i
    simp only [List.length_cons]
    rw [List.range'_succ]
    simp only [downloadLoopAux, List.map_cons, ih, downloadEntry_localPath_isSome]

theorem downloadLoopAux_countP (cwd prompt : String) (seed : Option Int) (isoNow : String)
    (ok : Nat → Bool) : ∀ (images : List ImageEntry) (i : Nat),
    (downloadLoopAux cwd prompt seed isoNow ok i images).countP (fun d => d.localPath.isSome) =
      (List.range' i images.length).countP ok := by
  intro images
  induction images with
  | nil => intro i; rfl
  | cons img rest ih =>
    intro i
    simp only [List.length_cons]
    rw [List.range'_succ]
    simp only [downloadLoopAux, List.countP_cons, ih (i + 1), downloadEntry_localPath_isSome]

theorem downloadLoopAux_map_filename (cwd prompt : String) (seed : Option Int) (isoNow : String)
    (ok : Nat → Bool) : ∀ (images : List ImageEntry) (i : Nat),
    (downloadLoopAux cwd prompt seed isoNow ok i images).map (fun d => d.filename) =
      (List.range' (i + 1) images.length).map
        (fun k => generateImageFilename prompt k seed isoNow) := by
  intro images
  induction images with
  | nil => intro i; rfl
  | cons img rest ih =>
    intro i
    simp only [List.length_cons]
    rw [List.range'_succ]
    simp [downloadLoopAux, downloadEntry, ih]

theorem downloadLoopAux_seed_zero (cwd prompt : String) (isoNow : String) (ok : Nat → Bool) :
    ∀ (images : List ImageEntry) (i : Nat),
    downloadLoopAux cwd prompt (some 0) isoNow ok i images =
      downloadLoopAux cwd prompt none isoNow ok i images := by
  intro images
  induction images with
  | nil => intro i; rfl
  | cons img rest ih =>
    intro i
    simp [downloadLoopAux, downloadEntry, generateImageFilename, seedStr, ih]

/-! ## Sanitizer lemmas -/

theorem collapseSpacesAux_nil (b : Bool) : collapseSpacesAux b [] = [] := by
  cases b <;> rfl

theorem collapseSpacesAux_cons (b : Bool) (d : Char) (rest : List Char) :
    collapseSpacesAux b (d :: rest) =
      match isJsSpace d, b with
      | true, true => collapseSpacesAux true rest
      | true, false => '_' :: collapseSpacesAux true rest
      | false, _ => d :: collapseSpacesAux false rest := by
  cases b <;> rfl

theorem collapseSpacesAux_cons_spc_true (d : Char) (rest : List Char) (hd : isJsSpace d = true) :
    collapseSpacesAux true (d :: rest) = collapseSpacesAux true rest := by
  rw [collapseSpacesAux_cons, hd]

theorem collapseSpacesAux_cons_spc_false (d : Char) (rest : List Char) (hd : isJsSpace d = true) :
    collapseSpacesAux false (d :: rest) = '_' :: collapseSpacesAux true rest := by
  rw [collapseSpacesAux_cons, hd]

theorem collapseSpacesAux_cons_nonspc (b : Bool) (d : Char) (rest : List Char)
    (hd : isJsSpace d = false) :
    collapseSpacesAux b (d :: rest) = d :: collapseSpacesAux false rest := by
  rw [collapseSpacesAux_cons, hd]

theorem collapseSpacesAux_mem : ∀ (l : List Char) (b : Bool) (c : Char),
    c ∈ collapseSpacesAux b l → c = '_' ∨ (c ∈ l ∧ isJsSpace c = false) := by
  intro l
  induction l with
  | nil => intro b c h; rw [collapseSpacesAux_nil] at h; exact absurd h (List.not_mem_nil c)
  | cons d rest ih =>
    intro b c h
    cases hd : isJsSpace d with
    | true =>
      cases b with
      | true =>
        rw [collapseSpacesAux_cons_spc_true d rest hd] at h
        rcases ih true c h with h1 | ⟨h2, h3⟩
        · exact Or.inl h1
        · exact Or.inr ⟨List.mem_cons_of_mem _ h2, h3⟩
      | false =>
        rw [collapseSpacesAux_cons_spc_false d rest hd] at h
        rcases List.mem_cons.mp h with rfl | h2
        · exact Or.inl rfl
        · rcases ih true c h2 with h1 | ⟨h3, h4⟩
          · exact Or.inl h1
          · exact Or.inr ⟨List.mem_cons_of_mem _ h3, h4⟩
    | false =>
      rw [collapseSpacesAux_cons_nonspc b d rest hd] at h
      rcases List.mem_cons.mp h with rfl | h2
      · exact Or.inr ⟨List.mem_cons_self _ _, hd⟩
      · rcases ih false c h2 with h1 | ⟨h3, h4⟩
        · exact Or.inl h1
        · exact Or.inr ⟨List.mem_cons_of_mem _ h3, h4⟩

/-! ## Handler reduction lemmas -/

theorem handlerGenerate_ok_eq (a : GenArgs) (env : GenEnv) (out : IdeogramImageResult)
    (hc : styleConflict a = false) (hb : env.backend = Except.ok out) :
    handlerGenerate true a env =
      { response :=
          { text := responseTextGenerate a.prompt (a.negative_prompt.getD "")
              (a.image_size.getD (ImageSizeT.preset "square_hd")) (a.rendering_speed.getD "BALANCED")
              a.style a.style_codes a.color_palette a.image_urls (a.expand_prompt.getD true)
              out.seed env.requestId
              (downloadLoop env.cwd a.prompt out.seed env.isoNow env.downloadOk out.images)
            isError := false }
        backendCalled := true
        payload := some (buildGenerateInput a)
        downloads := downloadLoop env.cwd a.prompt out.seed env.isoNow env.downloadOk out.images } := by
  simp [handlerGenerate, hc, hb]

theorem handlerQueueResult_ok_eq (rid : String) (env : GenEnv) (out : IdeogramImageResult)
    (hb : env.backend = Except.ok out) :
    handlerQueueResult true rid env =
      { response :=
          { text := responseTextQueueResult rid out.seed
              (downloadLoop env.cwd ("queue_result_" ++ rid) out.seed env.isoNow env.downloadOk out.images)
            isError := false }
        backendCalled := true
        downloads := downloadLoop env.cwd ("queue_result_" ++ rid) out.seed env.isoNow env.downloadOk out.images } := by
  simp [handlerQueueResult, hb]

/-! ## Claim theorems -/

/-- Claim C1: with the credential configured, `ideogram_v3_generate` and
`ideogram_v3_generate_queue` fail with the ConflictingParameters response
(making no backend call) if and only if `style` is set and `style_codes`
is set and non-empty; in every other case validation passes and the
backend is invoked. -/
theorem c1_style_mutual_exclusion (a : GenArgs) (env : GenEnv) (w : Option String)
    (qenv : QueueSubmitEnv) :
    ((handlerGenerate true a env =
        { response := conflictResponse, backendCalled := false, payload := none, downloads := [] }) ↔
      styleConflict a = true) ∧
    ((handlerGenerate true a env).backendCalled = true ↔ styleConflict a = false) ∧
    ((handlerGenerateQueue true a w qenv =
        { response := conflictResponse, backendCalled := false, payload := none }) ↔
      styleConflict a = true) ∧
    ((handlerGenerateQueue true a w qenv).backendCalled = true ↔ styleConflict a = false) ∧
    (styleConflict a = true ↔
      (jsTruthyStr a.style = true ∧ ∃ cs, a.style_codes = some cs ∧ cs ≠ [])) := by
  refine ⟨?_, ?_, ?_, ?_, styleConflict_iff a⟩
  · cases h : styleConflict a with
    | true => simp [handlerGenerate, h]
    | false => cases hb : env.backend <;> simp [handlerGenerate, h, hb]
  · cases h : styleConflict a with
    | true => simp [handlerGenerate, h]
    | false => cases hb : env.backend <;> simp [handlerGenerate, h, hb]
  · cases h : styleConflict a with
    | true => simp [handlerGenerateQueue, h]
    | false => cases hb : qenv.submit <;> simp [handlerGenerateQueue, h, hb]
  · cases h : styleConflict a with
    | true => simp [handlerGenerateQueue, h]
    | false => cases hb : qenv.submit <;> simp [handlerGenerateQueue, h, hb]

theorem c1_style_mutual_exclusion_witness :
    handlerGenerate true conflictArgs sampleEnv =
      { response := conflictResponse, backendCalled := false, payload := none, downloads := [] } :=
  (c1_style_mutual_exclusion conflictArgs sampleEnv none { submit := Except.ok "q" }).1.mpr
    (by decide)

/-- Claim C2: when the credential is absent at startup the process does
not exit, and each of the four tool handlers short-circuits to the
NotConfigured error response (failure flag set) for every input, with no
backend call and no downloads. -/
theorem c2_not_configured_short_circuit :
    (startup none).falConfigured = false ∧ (startup none).exited = false ∧
    notConfiguredResponse.isError = true ∧
    (∀ (a : GenArgs) (env : GenEnv),
      handlerGenerate (startup none).falConfigured a env =
        { response := notConfiguredResponse, backendCalled := false, payload := none, downloads := [] }) ∧
    (∀ (a : GenArgs) (w : Option String) (qenv : QueueSubmitEnv),
      handlerGenerateQueue (startup none).falConfigured a w qenv =
        { response := notConfiguredResponse, backendCalled := false, payload := none }) ∧
    (∀ (rid : String) (logs : Option Bool) (senv : StatusEnv),
      handlerQueueStatus (startup none).falConfigured rid logs senv =
        { response := notConfiguredResponse, backendCalled := false }) ∧
    (∀ (rid : String) (renv : GenEnv),
      handlerQueueResult (startup none).falConfigured rid renv =
        { response := notConfiguredResponse, backendCalled := false, downloads := [] }) :=
  ⟨rfl, rfl, rfl, fun _ _ => rfl, fun _ _ _ => rfl, fun _ _ _ => rfl, fun _ _ => rfl⟩

/-- Claim C7: each of the four handlers always returns a response whose
failure flag is `true` exactly on the error outcomes (missing credential,
parameter conflict, backend call error) and `false` on success, so
callers can branch on the flag without parsing the text; no error escapes
the handler. -/
theorem c7_error_flag_discipline (c : Bool) (a : GenArgs) (env : GenEnv) (w : Option String)
    (qenv : QueueSubmitEnv) (rid : String) (logs : Option Bool) (senv : StatusEnv)
    (rid2 : String) (renv : GenEnv) :
    (handlerGenerate c a env).response.isError =
      (!c || styleConflict a || !exceptOk env.backend) ∧
    (handlerGenerateQueue c a w qenv).response.isError =
      (!c || styleConflict a || !exceptOk qenv.submit) ∧
    (handlerQueueStatus c rid logs senv).response.isError =
      (!c || !exceptOk senv.status) ∧
    (handlerQueueResult c rid2 renv).response.isError =
      (!c || !exceptOk renv.backend) := by
  refine ⟨?_, ?_, ?_, ?_⟩
  · cases c with
    | false => rfl
    | true =>
      cases h : styleConflict a with
      | true => simp [handlerGenerate, h, conflictResponse]
      | false => cases hb : env.backend <;> simp [handlerGenerate, h, hb, exceptOk]
  · cases c with
    | false => rfl
    | true =>
      cases h : styleConflict a with
      | true => simp [handlerGenerateQueue, h, conflictResponse]
      | false => cases hb : qenv.submit <;> simp [handlerGenerateQueue, h, hb, exceptOk]
  · cases c with
    | false => rfl
    | true => cases hb : senv.status <;> simp [handlerQueueStatus, hb, exceptOk]
  · cases c with
    | false => rfl
    | true => cases hb : renv.backend <;> simp [handlerQueueResult, hb, exceptOk]

/-- Claim C3: for N images of which M fail to download, the loop yields
exactly N entries in input order, N-M with a local path and the failed M
with a null path, and a download failure never turns the generate /
queue-result response into an error. -/
theorem c3_download_batch_tolerance (cwd prompt : String) (seed : Option Int) (isoNow : String)
    (ok : Nat → Bool) (images : List ImageEntry) (a : GenArgs) (env : GenEnv)
    (out : IdeogramImageResult) (rid : String) :
    (downloadLoop cwd prompt seed isoNow ok images).length = images.length ∧
    (downloadLoop cwd prompt seed isoNow ok images).map (fun d => d.url) =
      images.map (fun img => img.url) ∧
    (downloadLoop cwd prompt seed isoNow ok images).map (fun d => d.index) =
      List.range' 1 images.length ∧
    (downloadLoop cwd prompt seed isoNow ok images).map (fun d => d.localPath.isSome) =
      (List.range images.length).map ok ∧
    (downloadLoop cwd prompt seed isoNow ok images).countP (fun d => d.localPath.isSome) +
      (List.range images.length).countP (fun k => !(ok k)) = images.length ∧
    (downloadLoop cwd prompt seed isoNow ok images).countP (fun d => d.localPath.isSome) =
      images.length - (List.range images.length).countP (fun k => !(ok k)) ∧
    (styleConflict a = false → env.backend = Except.ok out →
      (handlerGenerate true a env).response.isError = false) ∧
    (env.backend = Except.ok out →
      (handlerQueueResult true rid env).response.isError = false) := by
  have hcount : (downloadLoop cwd prompt seed isoNow ok images).countP (fun d => d.localPath.isSome) +
      (List.range images.length).countP (fun k => !(ok k)) = images.length := by
    have h1 := downloadLoopAux_countP cwd prompt seed isoNow ok images 0
    rw [← List.range_eq_range'] at h1
    have h2 := countP_bool_partition ok (List.range images.length)
    rw [List.length_range] at h2
    rw [downloadLoop, h1]
    exact h2
  refine ⟨downloadLoopAux_length cwd prompt seed isoNow ok images 0,
    downloadLoopAux_map_url cwd prompt seed isoNow ok images 0,
    downloadLoopAux_map_index cwd prompt seed isoNow ok images 0, ?_, hcount, by omega, ?_, ?_⟩
  · have h := downloadLoopAux_map_isSome cwd prompt seed isoNow ok images 0
    rw [← List.range_eq_range'] at h
    exact h
  · intro hc hb
    rw [handlerGenerate_ok_eq a env out hc hb]
  · intro hb
    rw [handlerQueueResult_ok_eq rid env out hb]

theorem c3_download_batch_tolerance_witness :
    styleConflict sampleArgs = false ∧ sampleEnv.backend = Except.ok sampleOut ∧
    (handlerGenerate true sampleArgs sampleEnv).response.isError = false ∧
    (handlerQueueResult true "r1" sampleEnv).response.isError = false :=
  ⟨by decide, rfl,
   (c3_download_batch_tolerance "/w" "a cat" none "T" sampleOk sampleImages sampleArgs sampleEnv
      sampleOut "r1").2.2.2.2.2.2.1 (by decide) rfl,
   (c3_download_batch_tolerance "/w" "a cat" none "T" sampleOk sampleImages sampleArgs sampleEnv
      sampleOut "r1").2.2.2.2.2.2.2 rfl⟩

/-- Claim C4 counterexample: sanitization is not idempotent — re-applying
it to the output of `sanitizePrompt "a b"` strips the underscore that the
whitespace collapapse introduced — and an all-symbol or empty prompt
sanitizes to the empty string, so the sanitized segment is not always
non-empty. -/
theorem c4_counterexample :
    sanitizePrompt (sanitizePrompt "a b") ≠ sanitizePrompt "a b" ∧
    sanitizePrompt "" = "" ∧ sanitizePrompt "!!!" = "" := by
  decide

/-- Claim C4 (amended): sanitization is a total function whose output
contains only lowercase alphanumerics and underscores and is at most 50
characters long, and the full generated filename is never empty; the
sanitized segment itself may be empty and re-sanitizing may change it. -/
theorem c4_sanitize_charset_and_bound (p : String) :
    (sanitizePrompt p).length ≤ 50 ∧
    (∀ c, c ∈ (sanitizePrompt p).data →
      (c = '_' ∨ ('a' ≤ c ∧ c ≤ 'z') ∨ ('0' ≤ c ∧ c ≤ '9'))) ∧
    (∀ (i : Nat) (s : Option Int) (t : String), generateImageFilename p i s t ≠ "") := by
  refine ⟨?_, ?_, ?_⟩
  · exact List.length_take_le 50 _
  · intro c hc
    have hc2 : c ∈ collapseSpacesAux false ((p.data.map Char.toLower).filter keepChar) :=
      List.take_subset 50 _ hc
    rcases collapseSpacesAux_mem _ _ _ hc2 with h1 | ⟨h2, h3⟩
    · exact Or.inl h1
    · have hk := (List.mem_filter.mp h2).2
      right
      simp only [keepChar, h3, Bool.or_false, Bool.or_eq_true, Bool.and_eq_true,
        decide_eq_true_eq] at hk
      exact hk
  · intro i s t h
    have hlen := congrArg String.length h
    simp only [generateImageFilename, strLength_append] at hlen
    have h12 : "ideogram_v3_".length = 12 := rfl
    have h0 : String.length "" = 0 := rfl
    rw [h12, h0] at hlen
    omega

theorem c4_sanitize_charset_and_bound_witness :
    ('h' ∈ (sanitizePrompt "Hi there!").data) ∧
    ('h' = '_' ∨ ('a' ≤ 'h' ∧ 'h' ≤ 'z') ∨ ('0' ≤ 'h' ∧ 'h' ≤ '9')) ∧
    generateImageFilename "Hi there!" 1 none "T" ≠ "" :=
  ⟨by decide, (c4_sanitize_charset_and_bound "Hi there!").2.1 'h' (by decide),
   (c4_sanitize_charset_and_bound "Hi there!").2.2 1 none "T"⟩

/-- Claim C5 counterexample: for the minimal request carrying only a
prompt, `ideogram_v3_generate` builds a payload with the seven defaulted
base fields while `ideogram_v3_generate_queue` forwards only the prompt,
so the two payloads differ. -/
theorem c5_counterexample :
    buildGenerateInput { prompt := "x" } ≠ buildQueueInput { prompt := "x" } := by
  decide

/-- Claim C5 (amended): the two operations do not share one
payload-construction step — generate applies defaults and omits empty
optional lists while generate_queue forwards the raw arguments minus the
webhook URL; the payloads coincide exactly when the request explicitly
supplies every defaulted field, `style` is not the empty string, and
`style_codes` / `image_urls` are not present-but-empty. -/
theorem c5_payload_agreement (a : GenArgs) :
    buildGenerateInput a = buildQueueInput a ↔
      (a.negative_prompt.isSome = true ∧ a.image_size.isSome = true ∧
       a.rendering_speed.isSome = true ∧ a.style ≠ some "" ∧
       a.style_codes ≠ some [] ∧ a.image_urls ≠ some [] ∧
       a.expand_prompt.isSome = true ∧ a.num_images.isSome = true ∧
       a.sync_mode.isSome = true) := by
  simp only [buildGenerateInput, buildQueueInput, FalInput.mk.injEq, true_and, and_true,
    eq_self_iff_true, optSomeGetD_eq, keepTruthy_eq_iff, keepNonempty_eq_iff]

theorem c5_payload_agreement_witness :
    buildGenerateInput c5FullArgs = buildQueueInput c5FullArgs :=
  (c5_payload_agreement c5FullArgs).mpr (by decide)

/-- Claim C6 counterexample: a non-2xx response and a request network
error both reject without removing the file that `fs.createWriteStream`
already created, so a failed download can leave an (empty) artifact in
the images directory. -/
theorem c6_counterexample :
    (downloadImage [] "/w" "http://u" "f.png" (DownloadOutcome.non2xx 404)).1 =
      Except.error "Failed to download image: HTTP 404" ∧
    (downloadImage [] "/w" "http://u" "f.png" (DownloadOutcome.non2xx 404)).2 =
      ["/w/images/f.png"] ∧
    (downloadImage [] "/w" "http://u" "f.png" (DownloadOutcome.netError "socket hang up")).2 =
      ["/w/images/f.png"] := by
  decide

/-- Claim C6 (amended): only a write-stream error mid-stream removes the
partially-written file (line 91); a successful download resolves with the
file present, while a non-2xx response or network error rejects and
leaves the created file behind. -/
theorem c6_cleanup_on_write_error (fs : List String) (cwd url filename msg : String) (code : Nat)
    (hnot : (cwd ++ "/images" ++ "/" ++ filename) ∉ fs) :
    (downloadImage fs cwd url filename (DownloadOutcome.writeError msg)).1 = Except.error msg ∧
    (cwd ++ "/images" ++ "/" ++ filename) ∉
      (downloadImage fs cwd url filename (DownloadOutcome.writeError msg)).2 ∧
    (downloadImage fs cwd url filename DownloadOutcome.success).1 =
      Except.ok (cwd ++ "/images" ++ "/" ++ filename) ∧
    (cwd ++ "/images" ++ "/" ++ filename) ∈
      (downloadImage fs cwd url filename DownloadOutcome.success).2 ∧
    (cwd ++ "/images" ++ "/" ++ filename) ∈
      (downloadImage fs cwd url filename (DownloadOutcome.non2xx code)).2 := by
  refine ⟨rfl, ?_, rfl, ?_, ?_⟩
  · show (cwd ++ "/images" ++ "/" ++ filename) ∉
      ((if (cwd ++ "/images" ++ "/" ++ filename) ∈ fs then fs
        else (cwd ++ "/images" ++ "/" ++ filename) :: fs).erase (cwd ++ "/images" ++ "/" ++ filename))
    rw [if_neg hnot, List.erase_cons_head]
    exact hnot
  · show (cwd ++ "/images" ++ "/" ++ filename) ∈
      (if (cwd ++ "/images" ++ "/" ++ filename) ∈ fs then fs
       else (cwd ++ "/images" ++ "/" ++ filename) :: fs)
    rw [if_neg hnot]
    exact List.mem_cons_self _ _
  · show (cwd ++ "/images" ++ "/" ++ filename) ∈
      (if (cwd ++ "/images" ++ "/" ++ filename) ∈ fs then fs
       else (cwd ++ "/images" ++ "/" ++ filename) :: fs)
    rw [if_neg hnot]
    exact List.mem_cons_self _ _

theorem c6_cleanup_on_write_error_witness :
    (("/w" ++ "/images" ++ "/" ++ "f.png") ∉ ([] : List String)) ∧
    ("/w" ++ "/images" ++ "/" ++ "f.png") ∉
      (downloadImage [] "/w" "http://u" "f.png" (DownloadOutcome.writeError "EPIPE")).2 :=
  ⟨by decide,
   (c6_cleanup_on_write_error [] "/w" "http://u" "f.png" "EPIPE" 404 (by decide)).2.1⟩

/-- Claim C8 counterexample: with a present seed of `0` the generated
filename omits the seed segment (JS number truthiness), so the claimed
structure with a seed segment for every present seed fails. -/
theorem c8_counterexample :
    generateImageFilename "cat" 1 (some 0) "2025-01-01T00:00:00.000Z" ≠
      "ideogram_v3_" ++ sanitizePrompt "cat" ++ "_0" ++ "_" ++ toString (1 : Nat) ++ "_" ++
        tsReplace "2025-01-01T00:00:00.000Z" ++ ".png" := by
  decide

/-- Claim C8 (amended): each downloaded image's filename is
`ideogram_v3_<sanitized label><seed segment>_<1-based index>_<timestamp>.png`,
where the label is the request prompt for generate and
`queue_result_<request id>` for queue_result, and the seed segment is
present exactly for a present non-zero seed. -/
theorem c8_filename_structure (a : GenArgs) (env : GenEnv) (out : IdeogramImageResult)
    (rid : String) (hc : styleConflict a = false) (hb : env.backend = Except.ok out) :
    ((handlerGenerate true a env).downloads.map (fun d => d.filename) =
      (List.range' 1 out.images.length).map
        (fun k => "ideogram_v3_" ++ sanitizePrompt a.prompt ++ seedStr out.seed ++ "_" ++
          toString k ++ "_" ++ tsReplace env.isoNow ++ ".png")) ∧
    ((handlerQueueResult true rid env).downloads.map (fun d => d.filename) =
      (List.range' 1 out.images.length).map
        (fun k => "ideogram_v3_" ++ sanitizePrompt ("queue_result_" ++ rid) ++ seedStr out.seed ++
          "_" ++ toString k ++ "_" ++ tsReplace env.isoNow ++ ".png")) ∧
    (∀ s : Int, s ≠ 0 → seedStr (some s) = "_" ++ toString s) ∧
    seedStr (some 0) = "" ∧ seedStr none = "" := by
  refine ⟨?_, ?_, ?_, rfl, rfl⟩
  · rw [handlerGenerate_ok_eq a env out hc hb]
    exact downloadLoopAux_map_filename env.cwd a.prompt out.seed env.isoNow env.downloadOk
      out.images 0
  · rw [handlerQueueResult_ok_eq rid env out hb]
    exact downloadLoopAux_map_filename env.cwd ("queue_result_" ++ rid) out.seed env.isoNow
      env.downloadOk out.images 0
  · intro s hs
    simp [seedStr, hs]

theorem c8_filename_structure_witness :
    styleConflict sampleArgs = false ∧
    (handlerGenerate true sampleArgs sampleEnv).downloads.map (fun d => d.filename) =
      (List.range' 1 sampleOut.images.length).map
        (fun k => "ideogram_v3_" ++ sanitizePrompt sampleArgs.prompt ++ seedStr sampleOut.seed ++
          "_" ++ toString k ++ "_" ++ tsReplace sampleEnv.isoNow ++ ".png") :=
  ⟨by decide,
   (c8_filename_structure sampleArgs sampleEnv sampleOut "r1" (by decide) rfl).1⟩

/-- Claim C9: when the backend result carries an empty image list, both
generate and queue_result return a success response (failure flag false)
whose text reports 0 generated images and still ends with the note that
local download failed while original URLs are available. -/
theorem c9_empty_image_list (a : GenArgs) (env : GenEnv) (out : IdeogramImageResult) (rid : String)
    (hc : styleConflict a = false) (hb : env.backend = Except.ok out) (him : out.images = []) :
    (handlerGenerate true a env).response.isError = false ∧
    "Successfully generated 0 image(s)".data <+: (handlerGenerate true a env).response.text.data ∧
    "Note: Local download failed, but original URLs are available.".data <:+
      (handlerGenerate true a env).response.text.data ∧
    (handlerQueueResult true rid env).response.isError = false ∧
    "Generated 0 image(s)".data <:+: (handlerQueueResult true rid env).response.text.data ∧
    "Note: Local download failed, but original URLs are available.".data <:+
      (handlerQueueResult true rid env).response.text.data := by
  have hg := handlerGenerate_ok_eq a env out hc hb
  have hq := handlerQueueResult_ok_eq rid env out hb
  have hdl : downloadLoop env.cwd a.prompt out.seed env.isoNow env.downloadOk out.images = [] := by
    rw [him]; rfl
  have hdlq : downloadLoop env.cwd ("queue_result_" ++ rid) out.seed env.isoNow env.downloadOk
      out.images = [] := by
    rw [him]; rfl
  refine ⟨by rw [hg], ?_, ?_, by rw [hq], ?_, ?_⟩
  · rw [hg, hdl]
    simp only [responseTextGenerate]
    apply dataPrefixExtend
    apply dataPrefixExtend
    apply dataPrefixExtend
    apply dataPrefixExtend
    exact ⟨" using fal-ai/ideogram/v3:\n\nPrompt: \x22".data, by decide⟩
  · rw [hg, hdl]
    simp only [responseTextGenerate]
    apply dataSuffixExtend
    exact ⟨[], by decide⟩
  · rw [hq, hdlq]
    simp only [responseTextQueueResult]
    apply dataInfixExtendRight
    apply dataInfixExtendRight
    apply dataInfixExtendRight
    apply dataInfixExtendLeft
    exact ⟨"\n\nSuccessfully completed! ".data, ":\n\n".data, by decide⟩
  · rw [hq, hdlq]
    simp only [responseTextQueueResult]
    apply dataSuffixExtend
    exact ⟨[], by decide⟩

theorem c9_empty_image_list_witness :
    styleConflict sampleArgs = false ∧ emptyOut.images = [] ∧
    (handlerGenerate true sampleArgs emptyEnv).response.isError = false ∧
    (handlerQueueResult true "r1" emptyEnv).response.isError = false :=
  ⟨by decide, rfl,
   (c9_empty_image_list sampleArgs emptyEnv emptyOut "r1" (by decide) rfl rfl).1,
   (c9_empty_image_list sampleArgs emptyEnv emptyOut "r1" (by decide) rfl rfl).2.2.2.1⟩

/-- Claim C10: a backend seed of 0 is treated exactly like an absent seed
by generate and queue_result: the whole call outcome is unchanged when the
seed is dropped, the filename omits the seed segment, and the summary
prints "Seed: Auto-generated" instead of echoing 0. -/
theorem c10_zero_seed_as_absent (a : GenArgs) (env : GenEnv) (out : IdeogramImageResult)
    (rid : String) (hc : styleConflict a = false) (hb : env.backend = Except.ok out)
    (hs : out.seed = some 0) :
    (∀ (p : String) (i : Nat) (t : String),
      generateImageFilename p i (some 0) t = generateImageFilename p i none t) ∧
    seedLine (some 0) = "Seed: Auto-generated" ∧
    handlerGenerate true a env =
      handlerGenerate true a { env with backend := Except.ok { out with seed := none } } ∧
    handlerQueueResult true rid env =
      handlerQueueResult true rid { env with backend := Except.ok { out with seed := none } } ∧
    "Seed: Auto-generated".data <:+: (handlerGenerate true a env).response.text.data ∧
    "Seed: Auto-generated".data <:+: (handlerQueueResult true rid env).response.text.data := by
  have hdl : downloadLoop env.cwd a.prompt (some 0) env.isoNow env.downloadOk out.images =
      downloadLoop env.cwd a.prompt none env.isoNow env.downloadOk out.images :=
    downloadLoopAux_seed_zero env.cwd a.prompt env.isoNow env.downloadOk out.images 0
  have hdlq : downloadLoop env.cwd ("queue_result_" ++ rid) (some 0) env.isoNow env.downloadOk
      out.images =
      downloadLoop env.cwd ("queue_result_" ++ rid) none env.isoNow env.downloadOk out.images :=
    downloadLoopAux_seed_zero env.cwd ("queue_result_" ++ rid) env.isoNow env.downloadOk
      out.images 0
  have hg := handlerGenerate_ok_eq a env out hc hb
  have hg2 := handlerGenerate_ok_eq a { env with backend := Except.ok { out with seed := none } }
    { out with seed := none } hc rfl
  have hq := handlerQueueResult_ok_eq rid env out hb
  have hq2 := handlerQueueResult_ok_eq rid { env with backend := Except.ok { out with seed := none } }
    { out with seed := none } rfl
  refine ⟨fun p i t => rfl, rfl, ?_, ?_, ?_, ?_⟩
  · rw [hg, hg2, hs, hdl]
    simp [responseTextGenerate, seedGroup, seedLine]
  · rw [hq, hq2, hs, hdlq]
    simp [responseTextQueueResult, seedLine]
  · rw [hg, hs]
    simp only [responseTextGenerate]
    apply dataInfixExtendRight
    apply dataInfixExtendRight
    apply dataInfixExtendLeft
    exact ⟨"\n".data, "\nRequest ID: ".data, by decide⟩
  · rw [hq, hs]
    simp only [responseTextQueueResult]
    apply dataInfixExtendRight
    apply dataInfixExtendRight
    apply dataInfixExtendLeft
    exact ⟨[], [], by decide⟩

theorem c10_zero_seed_witness :
    zeroSeedOut.seed = some 0 ∧
    generateImageFilename "p" 2 (some 0) "T" = generateImageFilename "p" 2 none "T" ∧
    handlerGenerate true sampleArgs zeroSeedEnv =
      handlerGenerate true sampleArgs
        { zeroSeedEnv with backend := Except.ok { zeroSeedOut with seed := none } } :=
  ⟨rfl,
   (c10_zero_seed_as_absent sampleArgs zeroSeedEnv zeroSeedOut "r1" (by decide) rfl rfl).1 "p" 2 "T",
   (c10_zero_seed_as_absent sampleArgs zeroSeedEnv zeroSeedOut "r1" (by decide) rfl rfl).2.2.1⟩
